import Mathlib

/-!
Shallow embedding of the `yandex-webmaster-mcp-server` repository:
the `withErrorHandling` tool-call error boundary and the
`YandexWebmasterClient` HTTP client (`makeRequest` retry loop,
`isRetryableError`, `validateRequired`, `hostUrl`, and the
query-string construction of `getPopularQueries` / `getIndexingSamples`).

Modelling conventions:
- JavaScript thrown values are `JsValue`: either a structured `JsError`
  (with `name` and `message` fields) or an arbitrary non-error value
  represented by its `String(v)` coercion.
- A parsed JSON payload is represented by its source text; the source's
  `text ? JSON.parse(text) : ({})` becomes `parseBody`.
- The HTTP transport is an oracle mapping (url, options, attempt number)
  to the outcome of one physical `fetch`: either a response with a status
  and a body text, or a timeout abort (`AbortError`).
- `makeRequest` is instrumented to also record the number of physical
  attempts made and the list of backoff delays awaited, so that the
  observable retry behaviour can be stated; the source computes the same
  results without recording them.
- `console.error` logging and wall-clock time are not modelled; the delay
  amounts passed to `setTimeout` are recorded symbolically.
-/

/-- JavaScript substring containment over explicit character lists:
`charsStartWith s pat` is true when `pat` is an initial segment of `s`. -/
def charsStartWith : List Char → List Char → Bool
  | _, [] => true
  | [], _ :: _ => false
  | c :: cs, p :: ps => c == p && charsStartWith cs ps

/-- `charsContain s pat`: `pat` occurs as a contiguous run inside `s`. -/
def charsContain : List Char → List Char → Bool
  | [], pat => pat.isEmpty
  | c :: cs, pat => charsStartWith (c :: cs) pat || charsContain cs pat

/-- Model of JavaScript `String.prototype.includes`. -/
def strIncludes (s pat : String) : Bool :=
  charsContain s.data pat.data

/-- JavaScript whitespace characters relevant to `String.prototype.trim`
(ASCII subset: space, tab, newline, carriage return, form feed, vertical tab). -/
def jsIsWs (c : Char) : Bool :=
  c == ' ' || c == '\t' || c == '\n' || c == '\r' || c == '\x0c' || c == '\x0b'

/-- Model of JavaScript `String.prototype.trim`. -/
def jsTrim (s : String) : String :=
  ⟨((s.data.dropWhile jsIsWs).reverse.dropWhile jsIsWs).reverse⟩

/-- A structured JavaScript `Error`: its `name` and `message` fields. -/
structure JsError where
  name : String
  message : String
  deriving Repr, DecidableEq

/-- A JavaScript thrown value: a structured `Error`, or an arbitrary
non-error value represented by its `String(v)` coercion. -/
inductive JsValue where
  | error (e : JsError)
  | other (strCoercion : String)
  deriving Repr, DecidableEq

/-- The message extraction of the error boundary:
`err instanceof Error ? err.message : String(err)`. -/
def jsMessage : JsValue → String
  | .error e => e.message
  | .other s => s

/-- One content block of a tool result: `{ type, text }`. -/
structure ContentBlock where
  type : String
  text : String
  deriving Repr, DecidableEq

/-- A tool-call result `{ isError?: bool, content: [...] }`; `isError = none`
models the field being absent. -/
structure CallToolResult where
  isError : Option Bool
  content : List ContentBlock
  deriving Repr, DecidableEq

/-- The source's `withErrorHandling` wrapper: a handler either resolves with a
`CallToolResult` or rejects with a thrown `JsValue` (modelled by `Except`).
The wrapper returns the handler's result on success and converts any thrown
value into `{ isError: true, content: [{type: "text", text: "Error: <m>"}] }`.
Its codomain is total (`CallToolResult`, not `Except`): the boundary itself
never throws. The `console.error` diagnostic log is not modelled. -/
def withErrorHandling {T : Type} (handler : T → Except JsValue CallToolResult) :
    T → CallToolResult :=
  fun params =>
    match handler params with
    | .ok r => r
    | .error err =>
        { isError := some true
          content := [{ type := "text", text := "Error: " ++ jsMessage err }] }

/-- The fixed upstream base URL. -/
def API_BASE : String := "https://api.webmaster.yandex.net/v4"

/-- Client configuration after the constructor's defaulting:
`timeout` (ms), `retries` (max attempts), `retryDelay` (base delay, ms). -/
structure ClientConfig where
  timeout : Nat
  retries : Nat
  retryDelay : Nat
  deriving Repr, DecidableEq

/-- HTTP method of a request descriptor. -/
inductive HttpMethod where
  | GET
  | POST
  | DELETE
  deriving Repr, DecidableEq

/-- Request options: method (default GET) and optional JSON body,
represented by its serialized text. -/
structure RequestOptions where
  method : HttpMethod := .GET
  body : Option String := none
  deriving Repr, DecidableEq

/-- Outcome of one physical `fetch` attempt: an HTTP response
(status code and body text) or a timeout abort. -/
inductive FetchOutcome where
  | response (status : Nat) (body : String)
  | abortTimeout
  deriving Repr, DecidableEq

/-- A transport oracle: what the network does for a given url, options and
(1-based) physical attempt number. -/
abbrev Transport := String → RequestOptions → Nat → FetchOutcome

/-- `response.ok`: status in the 2xx range. -/
def responseOk (status : Nat) : Bool :=
  200 ≤ status && status < 300

/-- The success path's body handling: `text ? JSON.parse(text) : ({} as T)`,
with parsed JSON values represented by their source text (an empty body
becomes the empty object). -/
def parseBody (text : String) : String :=
  if text = "" then "\x7b\x7d" else text

/-- The error message built for a non-ok response:
`Yandex Webmaster error ${status}: ${errorText}`. -/
def httpErrorMessage (status : Nat) (body : String) : String :=
  "Yandex Webmaster error " ++ toString status ++ ": " ++ body

/-- The body of `makeRequest`'s `try` block for one physical attempt:
a non-ok response throws an `Error` embedding status and body text; a
timeout aborts with an `AbortError`; an ok response yields the parsed body. -/
def attemptOnce (t : Transport) (url : String) (options : RequestOptions)
    (attempt : Nat) : Except JsValue String :=
  match t url options attempt with
  | .response status body =>
      if responseOk status then .ok (parseBody body)
      else .error (.error ⟨"Error", httpErrorMessage status body⟩)
  | .abortTimeout => .error (.error ⟨"AbortError", "This operation was aborted"⟩)

/-- `isRetryableError`: an `AbortError`, or an `Error` whose message text
contains "500", "502" or "503"; non-`Error` thrown values are never
retryable. -/
def isRetryableError : JsValue → Bool
  | .error e =>
      e.name == "AbortError" ||
      strIncludes e.message "500" ||
      strIncludes e.message "502" ||
      strIncludes e.message "503"
  | .other _ => false

deriving instance DecidableEq for Except

/-- The observable outcome of one logical `makeRequest` call: the terminal
result, the number of physical attempts made, and the backoff delays awaited
between attempts. -/
structure RunResult where
  result : Except JsValue String
  attempts : Nat
  waits : List Nat
  deriving Repr, DecidableEq

/-- The retry loop of `makeRequest`. On a failure with
`attempt < cfg.retries && isRetryableError e` the client waits
`cfg.retryDelay * attempt` and recurses with `attempt + 1`; otherwise the
failure propagates. `fuel` is only a structural-termination bound: the entry
point supplies `fuel = cfg.retries`, which always exceeds the number of
remaining retries (the guard requires `attempt < cfg.retries` and `attempt`
starts at 1), so the fuel-exhausted branch is unreachable from `makeRequest`. -/
def makeRequestGo (cfg : ClientConfig) (t : Transport) (url : String)
    (options : RequestOptions) : Nat → Nat → RunResult
  | attempt, 0 =>
      match attemptOnce t url options attempt with
      | .ok v => ⟨.ok v, 1, []⟩
      | .error e => ⟨.error e, 1, []⟩
  | attempt, fuel + 1 =>
      match attemptOnce t url options attempt with
      | .ok v => ⟨.ok v, 1, []⟩
      | .error e =>
          if attempt < cfg.retries && isRetryableError e then
            let rest := makeRequestGo cfg t url options (attempt + 1) fuel
            ⟨rest.result, rest.attempts + 1, cfg.retryDelay * attempt :: rest.waits⟩
          else ⟨.error e, 1, []⟩

/-- `makeRequest(url, options)`: one logical call, starting at attempt 1. -/
def makeRequest (cfg : ClientConfig) (t : Transport) (url : String)
    (options : RequestOptions := {}) : RunResult :=
  makeRequestGo cfg t url options 1 cfg.retries

/-- A runtime JavaScript value supplied for a parameter of a client
operation: `undefined` also stands for a missing record key. -/
inductive JsParam where
  | undefined
  | null
  | str (s : String)
  | num (n : Int)
  | bool (b : Bool)
  deriving Repr, DecidableEq

/-- JavaScript falsiness (`!v`) for the parameter values modelled
(`NaN` is not modelled). -/
def jsFalsy : JsParam → Bool
  | .undefined => true
  | .null => true
  | .str s => s == ""
  | .num n => n == 0
  | .bool b => !b

/-- `typeof v === 'string'`. -/
def jsIsString : JsParam → Bool
  | .str _ => true
  | _ => false

/-- The string payload of a parameter (used after a `typeof` check);
non-strings map to their JavaScript string coercion where it matters. -/
def jsStrVal : JsParam → String
  | .str s => s
  | .undefined => "undefined"
  | .null => "null"
  | .num n => toString n
  | .bool b => if b then "true" else "false"

/-- The per-field test of `validateRequired`:
`!params[field] || (typeof params[field] === 'string' && !params[field].trim())`. -/
def requiredViolation (v : JsParam) : Bool :=
  jsFalsy v || (jsIsString v && jsTrim (jsStrVal v) == "")

/-- Record lookup `params[field]`: a missing key reads as `undefined`. -/
def lookupParam (params : List (String × JsParam)) (field : String) : JsParam :=
  match params.find? (fun p => p.1 == field) with
  | some p => p.2
  | none => .undefined

/-- `validateRequired(params, fields)`: walks `fields` in order and throws
`"<field> is required and must be non-empty"` at the first violating field. -/
def validateRequired (params : List (String × JsParam)) :
    List String → Except JsError Unit
  | [] => .ok ()
  | field :: rest =>
      if requiredViolation (lookupParam params field) then
        .error ⟨"Error", field ++ " is required and must be non-empty"⟩
      else validateRequired params rest

/-- `hostUrl(userId, hostId, path)`: raw template-string concatenation,
with no URL-encoding of the identifiers. -/
def hostUrl (userId hostId : String) (path : String := "") : String :=
  API_BASE ++ "/user/" ++ userId ++ "/hosts/" ++ hostId ++ path

/-- `getHostInfo(userId, hostId)`: validate the two required fields, then
issue a GET to `hostUrl(userId, hostId)`. A validation failure propagates
before any physical attempt: the run records 0 attempts and no waits. -/
def getHostInfo (cfg : ClientConfig) (t : Transport) (userId hostId : JsParam) :
    RunResult :=
  match validateRequired [("userId", userId), ("hostId", hostId)]
      ["userId", "hostId"] with
  | .error e => ⟨.error (.error e), 0, []⟩
  | .ok _ => makeRequest cfg t (hostUrl (jsStrVal userId) (jsStrVal hostId))

/-- One harvested key/value pair of a `URLSearchParams` in insertion order. -/
abbrev QueryPairs := List (String × String)

/-- `URLSearchParams.set(k, v)`: replaces the value when the key is already
present, otherwise appends the pair (the keys used by the client are
pairwise distinct, so the multi-occurrence clean-up of the Web API never
fires). -/
def setParam (ps : QueryPairs) (k v : String) : QueryPairs :=
  if ps.any (fun p => p.1 == k) then
    ps.map (fun p => if p.1 == k then (k, v) else p)
  else ps ++ [(k, v)]

/-- Characters serialized verbatim by `application/x-www-form-urlencoded`. -/
def formSafe (c : Char) : Bool :=
  c.isAlphanum || c == '*' || c == '-' || c == '.' || c == '_'

/-- UTF-8 bytes of a character (as `Nat`s). -/
def utf8BytesOf (c : Char) : List Nat :=
  let n := c.toNat
  if n < 128 then [n]
  else if n < 2048 then [192 + n / 64, 128 + n % 64]
  else if n < 65536 then [224 + n / 4096, 128 + (n / 64) % 64, 128 + n % 64]
  else [240 + n / 262144, 128 + (n / 4096) % 64, 128 + (n / 64) % 64, 128 + n % 64]

/-- An uppercase hexadecimal digit. -/
def hexDigit (n : Nat) : Char :=
  if n < 10 then Char.ofNat (48 + n) else Char.ofNat (55 + n)

/-- Percent-encoding of one byte. -/
def pctByte (b : Nat) : List Char :=
  ['%', hexDigit (b / 16), hexDigit (b % 16)]

/-- Form-urlencoded serialization of one character: safe characters pass
through, a space becomes `+`, everything else is percent-encoded per byte. -/
def formEncodeChar (c : Char) : List Char :=
  if formSafe c then [c]
  else if c == ' ' then ['+']
  else (utf8BytesOf c).flatMap pctByte

/-- Form-urlencoded serialization of a string. -/
def formEncode (s : String) : String :=
  ⟨s.data.flatMap formEncodeChar⟩

/-- `URLSearchParams.toString()`: `k=v` pairs joined with `&`, keys and
values form-urlencoded. -/
def paramsToString : QueryPairs → String
  | [] => ""
  | [p] => formEncode p.1 ++ "=" ++ formEncode p.2
  | p :: q :: rest =>
      formEncode p.1 ++ "=" ++ formEncode p.2 ++ "&" ++ paramsToString (q :: rest)

/-- Truthiness of an optional string parameter (`if (params.queryIndicator)`). -/
def truthyOptStr : Option String → Bool
  | none => false
  | some s => !(s == "")

/-- Truthiness of an optional numeric parameter (`if (params.limit)`):
an absent value and the value 0 are both falsy. -/
def truthyOptInt : Option Int → Bool
  | none => false
  | some n => !(n == 0)

/-- The `SearchQueriesParams` shape of `getPopularQueries`. -/
structure SearchQueriesParams where
  dateFrom : String
  dateTo : String
  queryIndicator : Option String := none
  orderBy : String
  limit : Option Int := none
  offset : Option Int := none
  deriving Repr, DecidableEq

/-- The query pairs built by `getPopularQueries`: the three required keys in
literal insertion order, then each optional key appended only when its value
is truthy. -/
def popularQueriesPairs (p : SearchQueriesParams) : QueryPairs :=
  let qp := [("date_from", p.dateFrom), ("date_to", p.dateTo),
             ("order_by", p.orderBy)]
  let qp := if truthyOptStr p.queryIndicator then
      setParam qp "query_indicator" (p.queryIndicator.getD "") else qp
  let qp := if truthyOptInt p.limit then
      setParam qp "limit" (toString (p.limit.getD 0)) else qp
  if truthyOptInt p.offset then
    setParam qp "offset" (toString (p.offset.getD 0)) else qp

/-- The serialized query string of `getPopularQueries`. -/
def popularQueriesQuery (p : SearchQueriesParams) : String :=
  paramsToString (popularQueriesPairs p)

/-- The URL constructed by `getPopularQueries`. -/
def getPopularQueriesUrl (userId hostId : String) (p : SearchQueriesParams) :
    String :=
  hostUrl userId hostId ("/search-queries/popular?" ++ popularQueriesQuery p)

/-- The query pairs built by `getIndexingSamples` (and, identically, by
`getRecrawlTasks`, `getInternalLinks` and `getExternalLinks`): optional
`limit` and `offset`, each included only when truthy. -/
def limitOffsetPairs (limit offset : Option Int) : QueryPairs :=
  let qp : QueryPairs := []
  let qp := if truthyOptInt limit then
      setParam qp "limit" (toString (limit.getD 0)) else qp
  if truthyOptInt offset then
    setParam qp "offset" (toString (offset.getD 0)) else qp

/-- The URL constructed by `getIndexingSamples`: the query string is appended
only when non-empty. -/
def getIndexingSamplesUrl (userId hostId : String) (limit offset : Option Int) :
    String :=
  let queryString := paramsToString (limitOffsetPairs limit offset)
  hostUrl userId hostId
    ("/indexing/samples" ++ (if queryString == "" then "" else "?" ++ queryString))

/-- A transport that answers 503 on physical attempts 1 and 2 and succeeds
with a 200 on attempt 3. -/
def tFail503Twice : Transport := fun _ _ n =>
  if n ≤ 2 then .response 503 "Service Unavailable" else .response 200 "queries"

/-- A transport that always answers 503. -/
def tAlways503 : Transport := fun _ _ _ => .response 503 "Service Unavailable"

/-- A transport that always succeeds with a 200. -/
def tOk200 : Transport := fun _ _ _ => .response 200 "payload"

/-- A transport that always answers 404 with a plain body. -/
def t404Benign : Transport := fun _ _ _ => .response 404 "Not Found"

/-- A transport that always answers 404 with a body whose unrelated numeric
data contains the digits 503. -/
def t404Retried : Transport := fun _ _ _ => .response 404 "upstream ref 503992"

/-- A transport that always answers 404 with a JSON error body whose
unrelated trace identifier contains the digits 503. -/
def t404JsonBody : Transport := fun _ _ _ =>
  .response 404 "\x7b\"error\":\"NOT_FOUND\",\"trace_id\":5033\x7d"

/-- If `pat` starts `s`, it also starts `s ++ r`. -/
theorem charsStartWith_append (pat : List Char) :
    ∀ s r : List Char, charsStartWith s pat = true →
      charsStartWith (s ++ r) pat = true := by
  induction pat with
  | nil => intro s r _; cases s <;> simp [charsStartWith]
  | cons p ps ih =>
    intro s r h
    cases s with
    | nil => simp [charsStartWith] at h
    | cons c cs =>
      simp only [charsStartWith, Bool.and_eq_true] at h
      simp only [List.cons_append, charsStartWith, Bool.and_eq_true]
      exact ⟨h.1, ih cs r h.2⟩

/-- The empty pattern occurs in every list. -/
theorem charsContain_nil_pat (r : List Char) : charsContain r [] = true := by
  cases r <;> simp [charsContain, charsStartWith]

/-- An occurrence in `s` is an occurrence in `s ++ r`. -/
theorem charsContain_append_left (pat : List Char) :
    ∀ s r : List Char, charsContain s pat = true →
      charsContain (s ++ r) pat = true := by
  intro s
  induction s with
  | nil =>
    intro r h
    simp only [charsContain, List.isEmpty_iff] at h
    subst h
    simpa using charsContain_nil_pat r
  | cons c cs ih =>
    intro r h
    simp only [charsContain, Bool.or_eq_true] at h
    simp only [List.cons_append, charsContain, Bool.or_eq_true]
    rcases h with h1 | h2
    · exact Or.inl (by simpa using charsStartWith_append pat (c :: cs) r h1)
    · exact Or.inr (ih r h2)

/-- `String.prototype.includes` is preserved by appending a suffix. -/
theorem strIncludes_append_left (s r pat : String)
    (h : strIncludes s pat = true) : strIncludes (s ++ r) pat = true := by
  exact charsContain_append_left pat.data s.data r.data h

/-- Every run of the retry loop makes at least one physical attempt. -/
theorem makeRequestGo_attempts_pos (cfg : ClientConfig) (t : Transport)
    (url : String) (options : RequestOptions) :
    ∀ fuel attempt, 1 ≤ (makeRequestGo cfg t url options attempt fuel).attempts := by
  intro fuel
  induction fuel with
  | zero =>
    intro attempt
    cases h : attemptOnce t url options attempt <;> simp [makeRequestGo, h]
  | succ f ih =>
    intro attempt
    cases h : attemptOnce t url options attempt with
    | ok v => simp [makeRequestGo, h]
    | error e =>
      simp only [makeRequestGo, h]
      split
      · simp
      · simp

/-- The retry loop makes at most `cfg.retries - attempt + 1` physical
attempts: the guard `attempt < cfg.retries` bounds the recursion. -/
theorem makeRequestGo_attempts_le (cfg : ClientConfig) (t : Transport)
    (url : String) (options : RequestOptions) :
    ∀ fuel attempt, (makeRequestGo cfg t url options attempt fuel).attempts ≤
      cfg.retries - attempt + 1 := by
  intro fuel
  induction fuel with
  | zero =>
    intro attempt
    cases h : attemptOnce t url options attempt <;> simp [makeRequestGo, h]
  | succ f ih =>
    intro attempt
    cases h : attemptOnce t url options attempt with
    | ok v => simp [makeRequestGo, h]
    | error e =>
      simp only [makeRequestGo, h]
      split
      case isTrue hg =>
        simp only [Bool.and_eq_true, decide_eq_true_eq] at hg
        have hrest := ih (attempt + 1)
        simp only []
        omega
      case isFalse hg => simp

/-- C1: on a retryable failure, if the current attempt is strictly below
`cfg.retries` the client records a wait of `retryDelay * attempt` and retries
at `attempt + 1`; otherwise the failure propagates. With retries = 3, a
transport failing with 503 on the first two attempts and succeeding on the
third yields the parsed result after exactly 3 physical attempts with waits
`baseDelay * 1` then `baseDelay * 2`; a transport that always fails with 503
is attempted exactly 3 times and the final failure (message containing
"503") propagates. -/
theorem c1_linear_backoff_retry (cfg : ClientConfig) (t : Transport)
    (url : String) (options : RequestOptions) (attempt fuel : Nat) (e : JsValue)
    (h1 : attemptOnce t url options attempt = .error e)
    (h2 : isRetryableError e = true) :
    (attempt < cfg.retries →
      makeRequestGo cfg t url options attempt (fuel + 1) =
        ⟨(makeRequestGo cfg t url options (attempt + 1) fuel).result,
          (makeRequestGo cfg t url options (attempt + 1) fuel).attempts + 1,
          cfg.retryDelay * attempt ::
            (makeRequestGo cfg t url options (attempt + 1) fuel).waits⟩)
    ∧ (¬ attempt < cfg.retries →
      makeRequestGo cfg t url options attempt (fuel + 1) = ⟨.error e, 1, []⟩)
    ∧ (∀ d : Nat, ∀ u : String,
      makeRequest ⟨30000, 3, d⟩ tFail503Twice u {} =
        ⟨.ok "queries", 3, [d * 1, d * 2]⟩)
    ∧ (∀ d : Nat, ∀ u : String,
      makeRequest ⟨30000, 3, d⟩ tAlways503 u {} =
        ⟨.error (.error ⟨"Error", "Yandex Webmaster error 503: Service Unavailable"⟩),
          3, [d * 1, d * 2]⟩
      ∧ strIncludes "Yandex Webmaster error 503: Service Unavailable" "503" = true) := by
  refine ⟨?_, ?_, ?_, ?_⟩
  · intro hlt
    have hg : (decide (attempt < cfg.retries) && isRetryableError e) = true := by
      simp [hlt, h2]
    simp [makeRequestGo, h1, hg]
  · intro hge
    have hg : (decide (attempt < cfg.retries) && isRetryableError e) = false := by
      simp [hge]
    simp [makeRequestGo, h1, hg]
  · intro d u
    rfl
  · intro d u
    exact ⟨rfl, by decide⟩

/-- Witness for C1: with retries = 3, baseDelay = 1000, an always-503
transport at attempt 1 (two units of fuel remaining) takes the retry branch:
one more attempt is stacked and a wait of 1000 * 1 is recorded. -/
theorem c1_linear_backoff_retry_witness :
    makeRequestGo ⟨30000, 3, 1000⟩ tAlways503 "https://api.webmaster.yandex.net/v4/user/1/hosts/h" {} 1 3 =
      ⟨(makeRequestGo ⟨30000, 3, 1000⟩ tAlways503 "https://api.webmaster.yandex.net/v4/user/1/hosts/h" {} 2 2).result,
        (makeRequestGo ⟨30000, 3, 1000⟩ tAlways503 "https://api.webmaster.yandex.net/v4/user/1/hosts/h" {} 2 2).attempts + 1,
        1000 * 1 ::
          (makeRequestGo ⟨30000, 3, 1000⟩ tAlways503 "https://api.webmaster.yandex.net/v4/user/1/hosts/h" {} 2 2).waits⟩ :=
  (c1_linear_backoff_retry ⟨30000, 3, 1000⟩ tAlways503
      "https://api.webmaster.yandex.net/v4/user/1/hosts/h" {} 1 2
      (.error ⟨"Error", "Yandex Webmaster error 503: Service Unavailable"⟩)
      rfl (by decide)).1 (by decide)

/-- C2: whatever value a wrapped handler throws — a structured `Error` or an
arbitrary non-error value — `withErrorHandling` returns
`{isError: true, content: [{type: "text", text: "Error: <m>"}]}` where `m`
is the error's `message` for a structured error and the value's string
coercion otherwise. The wrapper's codomain is a total `CallToolResult`: the
boundary itself never throws. -/
theorem c2_error_boundary_catches_all {T : Type}
    (handler : T → Except JsValue CallToolResult) (params : T) (v : JsValue)
    (h : handler params = .error v) :
    withErrorHandling handler params =
      ⟨some true, [⟨"text", "Error: " ++ jsMessage v⟩]⟩
    ∧ (∀ e : JsError, v = .error e → jsMessage v = e.message)
    ∧ (∀ s : String, v = .other s → jsMessage v = s) := by
  refine ⟨?_, ?_, ?_⟩
  · simp [withErrorHandling, h]
  · rintro e rfl
    rfl
  · rintro s rfl
    rfl

/-- Witness for C2: a handler that throws `Error("boom")` is converted to
the error result with text "Error: boom". -/
theorem c2_error_boundary_catches_all_witness :
    withErrorHandling (fun _ : Unit => .error (.error ⟨"Error", "boom"⟩)) () =
      ⟨some true, [⟨"text", "Error: boom"⟩]⟩ :=
  (c2_error_boundary_catches_all
      (fun _ : Unit => .error (.error ⟨"Error", "boom"⟩)) ()
      (.error ⟨"Error", "boom"⟩) rfl).1

/-- C3 counterexample: a handler that resolves normally with a result whose
`isError` field is already set. The wrapper passes the result through
unchanged, so `isError` is present in the wrapper's output, contradicting
the claim that `isError` is absent whenever the handler resolves normally. -/
theorem c3_counterexample :
    (fun _ : Unit =>
        (Except.ok ⟨some true, [⟨"text", "ok"⟩]⟩ : Except JsValue CallToolResult)) () =
      Except.ok ⟨some true, [⟨"text", "ok"⟩]⟩
    ∧ withErrorHandling (fun _ : Unit =>
        (Except.ok ⟨some true, [⟨"text", "ok"⟩]⟩ : Except JsValue CallToolResult)) () =
      ⟨some true, [⟨"text", "ok"⟩]⟩
    ∧ ¬ (withErrorHandling (fun _ : Unit =>
        (Except.ok ⟨some true, [⟨"text", "ok"⟩]⟩ : Except JsValue CallToolResult)) ()).isError = none :=
  ⟨rfl, rfl, by simp [withErrorHandling]⟩

/-- C3 (amended): when the handler resolves normally the wrapper's output is
exactly the handler's output — no mutation or re-wrapping — and in
particular the output's `isError` field is exactly the handler's, absent
whenever the handler's result leaves it absent. -/
theorem c3_success_passthrough {T : Type}
    (handler : T → Except JsValue CallToolResult) (params : T)
    (r : CallToolResult) (h : handler params = .ok r) :
    withErrorHandling handler params = r
    ∧ (withErrorHandling handler params).isError = r.isError := by
  constructor <;> simp [withErrorHandling, h]

/-- Witness for C3 (amended): a handler resolving with a plain text result
(no `isError`) passes through unchanged. -/
theorem c3_success_passthrough_witness :
    withErrorHandling (fun _ : Unit =>
        (Except.ok ⟨none, [⟨"text", "ok"⟩]⟩ : Except JsValue CallToolResult)) () =
      ⟨none, [⟨"text", "ok"⟩]⟩ :=
  (c3_success_passthrough
      (fun _ : Unit =>
        (Except.ok ⟨none, [⟨"text", "ok"⟩]⟩ : Except JsValue CallToolResult)) ()
      ⟨none, [⟨"text", "ok"⟩]⟩ rfl).1

/-- C4: `validateRequired` fails with a message naming the first violating
field (a field that is missing, `undefined`/`null`, or a whitespace-only
string satisfies `requiredViolation`), and a client operation — `getHostInfo`
here — whose validation fails issues zero HTTP requests and records no
retry waits. -/
theorem c4_required_field_validation (cfg : ClientConfig) (t : Transport)
    (u h : JsParam) :
    (∀ (params : List (String × JsParam)) (field : String) (rest : List String),
      requiredViolation (lookupParam params field) = true →
        validateRequired params (field :: rest) =
          .error ⟨"Error", field ++ " is required and must be non-empty"⟩)
    ∧ (requiredViolation u = true →
      getHostInfo cfg t u h =
        ⟨.error (.error ⟨"Error", "userId is required and must be non-empty"⟩), 0, []⟩)
    ∧ (requiredViolation u = false → requiredViolation h = true →
      getHostInfo cfg t u h =
        ⟨.error (.error ⟨"Error", "hostId is required and must be non-empty"⟩), 0, []⟩) := by
  refine ⟨?_, ?_, ?_⟩
  · intro params field rest hv
    simp [validateRequired, hv]
  · intro hu
    have hl : lookupParam [("userId", u), ("hostId", h)] "userId" = u := rfl
    simp [getHostInfo, validateRequired, hl, hu]
  · intro hu hh
    have hl1 : lookupParam [("userId", u), ("hostId", h)] "userId" = u := rfl
    have hl2 : lookupParam [("userId", u), ("hostId", h)] "hostId" = h := rfl
    simp [getHostInfo, validateRequired, hl1, hl2, hu, hh]

/-- Witness for C4: calling `getHostInfo` with a whitespace-only `userId`
fails naming `userId`, with 0 physical attempts and no waits. -/
theorem c4_required_field_validation_witness :
    requiredViolation (.str "   ") = true
    ∧ getHostInfo ⟨30000, 3, 1000⟩ tOk200 (.str "   ") (.str "example.com:443") =
      ⟨.error (.error ⟨"Error", "userId is required and must be non-empty"⟩), 0, []⟩ :=
  ⟨rfl, (c4_required_field_validation ⟨30000, 3, 1000⟩ tOk200
      (.str "   ") (.str "example.com:443")).2.1 rfl⟩

/-- C5 counterexample: the claim quantifies over every transport that
returns HTTP 404 on the first attempt and asserts exactly one physical
attempt. A transport answering 404 with a body whose unrelated digits
contain "503" is retried: the client makes 3 attempts, not 1. -/
theorem c5_counterexample :
    t404Retried "https://api.webmaster.yandex.net/v4/user/1/hosts/h" {} 1 =
      .response 404 "upstream ref 503992"
    ∧ (makeRequest ⟨30000, 3, 1000⟩ t404Retried
        "https://api.webmaster.yandex.net/v4/user/1/hosts/h" {}).attempts = 3
    ∧ ¬ (makeRequest ⟨30000, 3, 1000⟩ t404Retried
        "https://api.webmaster.yandex.net/v4/user/1/hosts/h" {}).attempts = 1 := by
  decide

/-- C5 (amended): for every transport whose first response has a non-2xx
status and whose resulting error (`Yandex Webmaster error <status>: <body>`)
is not classified retryable — i.e. the message does not contain "500",
"502" or "503", which holds for a 404 whenever the body is free of those
digit runs — the client fails immediately after exactly 1 physical attempt
with no retry waits; for status 404 the message contains "404". -/
theorem c5_non_retryable_single_attempt (cfg : ClientConfig) (t : Transport)
    (url : String) (options : RequestOptions) (status : Nat) (body : String)
    (h1 : t url options 1 = .response status body)
    (h2 : responseOk status = false)
    (h3 : isRetryableError (.error ⟨"Error", httpErrorMessage status body⟩) = false) :
    makeRequest cfg t url options =
      ⟨.error (.error ⟨"Error", httpErrorMessage status body⟩), 1, []⟩
    ∧ (status = 404 → strIncludes (httpErrorMessage status body) "404" = true) := by
  have ha : attemptOnce t url options 1 =
      .error (.error ⟨"Error", httpErrorMessage status body⟩) := by
    simp [attemptOnce, h1, h2]
  constructor
  · unfold makeRequest
    cases hr : cfg.retries with
    | zero => simp [makeRequestGo, ha]
    | succ f => simp [makeRequestGo, ha, h3]
  · intro hs
    subst hs
    exact strIncludes_append_left
      ("Yandex Webmaster error " ++ toString (404 : Nat) ++ ": ") body "404" (by decide)

/-- Witness for C5 (amended): a 404 with body "Not Found" makes exactly one
attempt and its message contains "404". -/
theorem c5_non_retryable_single_attempt_witness :
    makeRequest ⟨30000, 3, 1000⟩ t404Benign
        "https://api.webmaster.yandex.net/v4/user/1/hosts/h" {} =
      ⟨.error (.error ⟨"Error", httpErrorMessage 404 "Not Found"⟩), 1, []⟩ :=
  (c5_non_retryable_single_attempt ⟨30000, 3, 1000⟩ t404Benign
      "https://api.webmaster.yandex.net/v4/user/1/hosts/h" {} 404 "Not Found"
      rfl rfl (by decide)).1

/-- C6: the retry classification searches the error message text for the
substrings "500"/"502"/"503" rather than using a structured status code;
a 404 response whose JSON body contains "503" inside an unrelated trace
identifier is classified retryable and actually retried (3 attempts, not
1), even though its status, 404, is not a retryable status. -/
theorem c6_substring_classification_misfires :
    isRetryableError
        (.error ⟨"Error",
          httpErrorMessage 404 "\x7b\"error\":\"NOT_FOUND\",\"trace_id\":5033\x7d"⟩) = true
    ∧ strIncludes
        (httpErrorMessage 404 "\x7b\"error\":\"NOT_FOUND\",\"trace_id\":5033\x7d")
        "503" = true
    ∧ responseOk 404 = false
    ∧ (makeRequest ⟨30000, 3, 1000⟩ t404JsonBody
        "https://api.webmaster.yandex.net/v4/user/1/hosts/h" {}).attempts = 3
    ∧ ¬ (makeRequest ⟨30000, 3, 1000⟩ t404JsonBody
        "https://api.webmaster.yandex.net/v4/user/1/hosts/h" {}).attempts = 1 := by
  decide

/-- C7: a popular-queries request with `dateFrom = "2024-01-01"`,
`dateTo = "2024-01-31"`, `orderBy = "TOTAL_CLICKS"` and no optional fields
builds exactly the query string
`date_from=2024-01-01&date_to=2024-01-31&order_by=TOTAL_CLICKS`, with keys
in that order and no `limit`, `offset` or `query_indicator` key. -/
theorem c7_popular_queries_query_string :
    popularQueriesQuery ⟨"2024-01-01", "2024-01-31", none, "TOTAL_CLICKS", none, none⟩ =
      "date_from=2024-01-01&date_to=2024-01-31&order_by=TOTAL_CLICKS"
    ∧ (popularQueriesPairs
        ⟨"2024-01-01", "2024-01-31", none, "TOTAL_CLICKS", none, none⟩).map Prod.fst =
      ["date_from", "date_to", "order_by"]
    ∧ strIncludes
        (popularQueriesQuery ⟨"2024-01-01", "2024-01-31", none, "TOTAL_CLICKS", none, none⟩)
        "limit" = false
    ∧ strIncludes
        (popularQueriesQuery ⟨"2024-01-01", "2024-01-31", none, "TOTAL_CLICKS", none, none⟩)
        "offset" = false
    ∧ strIncludes
        (popularQueriesQuery ⟨"2024-01-01", "2024-01-31", none, "TOTAL_CLICKS", none, none⟩)
        "query_indicator" = false := by
  decide

/-- C8: every logical `makeRequest` call is a total function of the
transport and so terminates with exactly one terminal outcome — a success
payload or an error — and the number of physical attempts underneath is at
least 1 and at most `max cfg.retries 1`: the attempt counter starts at 1,
grows by 1 per retry, and the guard `attempt < cfg.retries` bounds the
recursion. -/
theorem c8_one_outcome_bounded_attempts (cfg : ClientConfig) (t : Transport)
    (url : String) (options : RequestOptions) :
    1 ≤ (makeRequest cfg t url options).attempts
    ∧ (makeRequest cfg t url options).attempts ≤ max cfg.retries 1
    ∧ ((∃ v, (makeRequest cfg t url options).result = Except.ok v)
        ∨ (∃ e, (makeRequest cfg t url options).result = Except.error e)) := by
  refine ⟨makeRequestGo_attempts_pos cfg t url options cfg.retries 1, ?_, ?_⟩
  · have hb := makeRequestGo_attempts_le cfg t url options cfg.retries 1
    unfold makeRequest
    omega
  · cases h : (makeRequest cfg t url options).result with
    | ok v => exact Or.inl ⟨v, rfl⟩
    | error e => exact Or.inr ⟨e, rfl⟩

/-- C9: for the operations with optional numeric `limit`/`offset`
parameters, passing 0 produces a URL with the key omitted entirely —
indistinguishable from not supplying the parameter — because inclusion is
gated on the value's truthiness (`if (limit)`), and 0 is falsy. -/
theorem c9_zero_limit_offset_omitted (userId hostId dateFrom dateTo orderBy : String)
    (qi : Option String) :
    popularQueriesQuery ⟨dateFrom, dateTo, qi, orderBy, some 0, some 0⟩ =
      popularQueriesQuery ⟨dateFrom, dateTo, qi, orderBy, none, none⟩
    ∧ getPopularQueriesUrl userId hostId ⟨dateFrom, dateTo, qi, orderBy, some 0, some 0⟩ =
      getPopularQueriesUrl userId hostId ⟨dateFrom, dateTo, qi, orderBy, none, none⟩
    ∧ getIndexingSamplesUrl userId hostId (some 0) (some 0) =
      getIndexingSamplesUrl userId hostId none none
    ∧ getIndexingSamplesUrl userId hostId (some 0) (some 0) =
      hostUrl userId hostId "/indexing/samples" :=
  ⟨rfl, rfl, rfl, rfl⟩

/-- C10: request URLs are built by raw string concatenation of the fixed
base URL with `/user/` + userId + `/hosts/` + hostId + path, with no
URL-encoding of the identifiers; consequently a hostId containing `/`
collides with a different (hostId, path) pair — the URL for hostId "b/c"
is literally the URL of hostId "b" with path "/c". -/
theorem c10_raw_url_concatenation (u h p : String) :
    hostUrl u h p = API_BASE ++ "/user/" ++ u ++ "/hosts/" ++ h ++ p
    ∧ hostUrl "42" "b/c" "" = hostUrl "42" "b" "/c"
    ∧ ¬ (("b/c" : String) = "b" ∧ ("" : String) = "/c") :=
  ⟨rfl, rfl, by decide⟩
